import Mathlib

/-!
Verification of the `wofc` world-generation fragment
(`src/resource/world/mod.rs`).

The visible source holds the `lazy_static` default constants and the
`WorldBuilder` (fields, `new`, `set_seed`).  Floating-point scalars are
embedded as rationals: every comparison proved here is between values
whose distance is far larger than any `f64` rounding error, and every
exact-equality statement is about a dyadic value that `f64` represents
exactly, so the rational embedding is faithful to the source.

The `continent` module is declared in the source (`mod continent;`) but
its file is absent from the repository fragment, so `Config`, `build`,
`World::elevation_at` and the River Carver are modelled from the spec;
each such definition carries a doc comment saying so.
-/

namespace Wofc

/-- Seed key for unique planetary landscape generation
(`CURRENT_SEED`, default `0`). -/
def CURRENT_SEED : Nat := 0

/-- Planet continent frequency (`CONTINENT_FREQUENCY = 1.0`). -/
def CONTINENT_FREQUENCY : ℚ := 1

/-- Planet continent lacunarity (`CONTINENT_LACUNARITY = 2.208984375`). -/
def CONTINENT_LACUNARITY : ℚ := 2.208984375

/-- Mountain lacunarity (`MOUNTAIN_LACUNARITY = 2.142578125`). -/
def MOUNTAIN_LACUNARITY : ℚ := 2.142578125

/-- Hills lacunarity (`HILLS_LACUNARITY = 2.162109375`). -/
def HILLS_LACUNARITY : ℚ := 2.162109375

/-- Plains lacunarity (`PLAINS_LACUNARITY = 2.314453125`). -/
def PLAINS_LACUNARITY : ℚ := 2.314453125

/-- Badlands lacunarity (`BADLANDS_LACUNARITY = 2.212890625`). -/
def BADLANDS_LACUNARITY : ℚ := 2.212890625

/-- Mountain twist factor (`MOUNTAINS_TWIST = 1.0`). -/
def MOUNTAINS_TWIST : ℚ := 1

/-- Hills twist factor (`HILLS_TWIST = 1.0`). -/
def HILLS_TWIST : ℚ := 1

/-- Badlands twist factor (`BADLANDS_TWIST = 1.0`). -/
def BADLANDS_TWIST : ℚ := 1

/-- Sea level of the planet (`SEA_LEVEL = 0.0`). -/
def SEA_LEVEL : ℚ := 0

/-- Level at which continental shelves appear (`SHELF_LEVEL = -0.375`);
the source doc comment requires it to be below `SEA_LEVEL`. -/
def SHELF_LEVEL : ℚ := -0.375

/-- Amount of mountainous terrain (`MOUNTAINS_AMOUNT = 0.48`). -/
def MOUNTAINS_AMOUNT : ℚ := 0.48

/-- Amount of hilly terrain
(`HILLS_AMOUNT = (1.0 + *MOUNTAINS_AMOUNT) / 2.0`); the source doc
comment requires this value to be less than `MOUNTAINS_AMOUNT`. -/
def HILLS_AMOUNT : ℚ := (1 + MOUNTAINS_AMOUNT) / 2

/-- Amount of badlands terrain (`BADLANDS_AMOUNT = 0.3125`). -/
def BADLANDS_AMOUNT : ℚ := 0.3125

/-- Offset applied to terrain-type determination (`TERRAIN_OFFSET = 1.0`). -/
def TERRAIN_OFFSET : ℚ := 1

/-- Amount of mountain glaciation (`MOUNTAIN_GLACIATION = 0.375`); the
source doc comment requires a value close to and greater than `1.0`. -/
def MOUNTAIN_GLACIATION : ℚ := 0.375

/-- Scaling of base-continent elevations
(`CONTINENT_HEIGHT_SCALE = (1.0 - *SEA_LEVEL) / 4.0`). -/
def CONTINENT_HEIGHT_SCALE : ℚ := (1 - SEA_LEVEL) / 4

/-- Maximum river depth in planetary height units
(`RIVER_DEPTH = 0.0234375`). -/
def RIVER_DEPTH : ℚ := 0.0234375

/-- The `WorldBuilder` struct: holds only `current_seed: u32`
(embedded as a natural number below `2^32`). -/
structure WorldBuilder where
  current_seed : Nat
deriving DecidableEq, Repr

/-- Modelled from the spec: the external RNG capability used by
`WorldBuilder::new` (`rand::thread_rng().gen::<u32>()`), absent from the
fragment.  The thread RNG is represented by an abstract state, and the
drawn `u32` is a deterministic function of that state. -/
def rngGenU32 (rngState : Nat) : Nat :=
  (rngState * 2654435761 + 12345) % 2 ^ 32

/-- `WorldBuilder::new`: builds a `WorldBuilder` whose `current_seed`
is a fresh draw from the thread RNG (the RNG state is passed
explicitly, as the embedding is pure). -/
def WorldBuilder.new (rngState : Nat) : WorldBuilder :=
  { current_seed := rngGenU32 rngState }

/-- `WorldBuilder::set_seed`: consumes the builder, overwrites
`current_seed` with the given seed, and returns the builder by value. -/
def WorldBuilder.set_seed (b : WorldBuilder) (seed : Nat) : WorldBuilder :=
  { b with current_seed := seed }

/-- Modelled from the spec: the `Config` record of spec section 3 — the
scalar knobs plus seed; the missing `continent` module owns the real
one.  Only the fields constrained by the section-3 invariants, plus the
river depth used by the River Carver, are carried. -/
structure Config where
  seed : Nat
  sea_level : ℚ
  shelf_level : ℚ
  mountains_amount : ℚ
  hills_amount : ℚ
  badlands_amount : ℚ
  river_depth : ℚ
deriving DecidableEq, Repr

/-- Modelled from the spec: `ConfigError::InvalidInvariant(which)`,
raised at `build()` time (error taxonomy of spec section 7). -/
inductive ConfigError where
  | InvalidInvariant (which : String)
deriving DecidableEq, Repr

/-- The conjunction of the section-3 `Config` invariants:
`SHELF_LEVEL < SEA_LEVEL`, `HILLS_AMOUNT < MOUNTAINS_AMOUNT`, every
`*_AMOUNT` in `[0, 1]`, and `SEA_LEVEL`, `SHELF_LEVEL` in `[-1, 1]`. -/
def Config.invariantHolds (c : Config) : Prop :=
  c.shelf_level < c.sea_level ∧
  c.hills_amount < c.mountains_amount ∧
  (0 ≤ c.mountains_amount ∧ c.mountains_amount ≤ 1) ∧
  (0 ≤ c.hills_amount ∧ c.hills_amount ≤ 1) ∧
  (0 ≤ c.badlands_amount ∧ c.badlands_amount ≤ 1) ∧
  (-1 ≤ c.sea_level ∧ c.sea_level ≤ 1) ∧
  (-1 ≤ c.shelf_level ∧ c.shelf_level ≤ 1)

instance (c : Config) : Decidable c.invariantHolds := by
  unfold Config.invariantHolds; infer_instance

/-- The default `Config` assembled from the `lazy_static` defaults of
the fragment. -/
def defaultConfig : Config :=
  { seed := CURRENT_SEED
    sea_level := SEA_LEVEL
    shelf_level := SHELF_LEVEL
    mountains_amount := MOUNTAINS_AMOUNT
    hills_amount := HILLS_AMOUNT
    badlands_amount := BADLANDS_AMOUNT
    river_depth := RIVER_DEPTH }

/-- Modelled from the spec: the `World` produced by `build()` — wraps
the immutable `Config` (plus seed-derived noise handles, which here are
recomputed from the seed on demand). -/
structure World where
  config : Config
deriving DecidableEq, Repr

/-- Modelled from the spec: `WorldBuilder::build()` (absent from the
fragment) — validates every section-3 invariant of the supplied
`Config`, fails with `ConfigError::InvalidInvariant` naming the first
violated invariant, and otherwise returns the `World` wrapping the
`Config` with the builder's seed. -/
def WorldBuilder.build (b : WorldBuilder) (c : Config) :
    Except ConfigError World :=
  if ¬ c.shelf_level < c.sea_level then
    .error (.InvalidInvariant "SHELF_LEVEL >= SEA_LEVEL")
  else if ¬ c.hills_amount < c.mountains_amount then
    .error (.InvalidInvariant "HILLS_AMOUNT >= MOUNTAINS_AMOUNT")
  else if ¬ (0 ≤ c.mountains_amount ∧ c.mountains_amount ≤ 1) then
    .error (.InvalidInvariant "MOUNTAINS_AMOUNT outside 0..1")
  else if ¬ (0 ≤ c.hills_amount ∧ c.hills_amount ≤ 1) then
    .error (.InvalidInvariant "HILLS_AMOUNT outside 0..1")
  else if ¬ (0 ≤ c.badlands_amount ∧ c.badlands_amount ≤ 1) then
    .error (.InvalidInvariant "BADLANDS_AMOUNT outside 0..1")
  else if ¬ (-1 ≤ c.sea_level ∧ c.sea_level ≤ 1) then
    .error (.InvalidInvariant "SEA_LEVEL outside -1..1")
  else if ¬ (-1 ≤ c.shelf_level ∧ c.shelf_level ≤ 1) then
    .error (.InvalidInvariant "SHELF_LEVEL outside -1..1")
  else
    .ok { config := { c with seed := b.current_seed } }

/-- Modelled from the spec: the external Noise Source capability of
spec section 4.1 (the seeded coherent-noise sampler consumed by the
missing `continent` module) — a concrete, deterministic, pure function
of `(seed, x, y)` standing in for it. -/
def noiseSample (seed : Nat) (x y : ℚ) : ℚ :=
  let mix : Nat :=
    (seed + x.num.natAbs + 31 * y.num.natAbs + 17 * x.den + 57 * y.den)
      * 2654435761 % 2 ^ 32
  (mix : ℚ) / 2 ^ 31 - 1

/-- Modelled from the spec: the deterministic seed-derivation function
of spec section 4.1 (`root_seed + layer_index * K`), which derives the
per-layer noise seeds from the root seed. -/
def deriveSeed (rootSeed layerIndex : Nat) : Nat :=
  rootSeed + layerIndex * 1013

/-- Modelled from the spec: the smooth-step utility consumed by the
Selector/Blender (spec section 6), clamped to `[0, 1]`. -/
def smoothStep (lo hi t : ℚ) : ℚ :=
  if t ≤ lo then 0
  else if hi ≤ t then 1
  else
    let u := (t - lo) / (hi - lo)
    u * u * (3 - 2 * u)

/-- Modelled from the spec: the River Carver of spec section 4.5 —
`elevation -= min(drainage_intensity, 1.0) * RIVER_DEPTH`, applied only
where `elevation > SHELF_LEVEL` (rivers do not carve underwater). -/
def riverCarve (c : Config) (elevation drainage : ℚ) : ℚ :=
  if c.shelf_level < elevation then
    elevation - min drainage 1 * c.river_depth
  else
    elevation

/-- Modelled from the spec: the drainage-intensity scalar of spec
section 4.5, derived from the same terrain-control noise. -/
def drainageIntensity (c : Config) (x y : ℚ) : ℚ :=
  (noiseSample (deriveSeed c.seed 5) x y + 1) / 2

/-- Modelled from the spec: one Terrain Layer contribution (spec
sections 4.2 and 4.3) — base fractal noise at the layer's derived seed,
domain-warped by a twist noise field at a distinct derived seed. -/
def layerElevation (c : Config) (layerIndex : Nat) (x y : ℚ) : ℚ :=
  let twist := noiseSample (deriveSeed c.seed (layerIndex + 7)) x y
  noiseSample (deriveSeed c.seed layerIndex) (x + twist) (y + twist)

/-- Modelled from the spec: the Selector/Blender and River Carver
composition of spec sections 4.4 and 4.5 — continent base scaled by
`CONTINENT_HEIGHT_SCALE`, terrain-type weights from the coverage
amounts via smooth-step, badlands blended last by linear
interpolation, then the river carve. -/
def World.elevation_at (w : World) (x y : ℚ) : ℚ :=
  let c := w.config
  let continent := layerElevation c 0 x y
  let control := (noiseSample (deriveSeed c.seed 6) x y + 1) / 2
  let mWeight := smoothStep (c.hills_amount) 1 (control + c.mountains_amount)
  let hWeight := (1 - mWeight) * smoothStep 0 1 (control + c.hills_amount)
  let base :=
    continent * CONTINENT_HEIGHT_SCALE
      + mWeight * layerElevation c 1 x y
      + hWeight * layerElevation c 2 x y
      + (1 - mWeight - hWeight) * layerElevation c 3 x y
  let bWeight := smoothStep 0 1 (control + c.badlands_amount - 1)
  let blended := base + bWeight * (layerElevation c 4 x y - base)
  riverCarve c blended (drainageIntensity c x y)

/-- A sample valid `Config`: identical to the defaults except that
`hills_amount` is lowered to `0.25`, which satisfies every section-3
invariant (the shipped default `HILLS_AMOUNT = 0.74` does not). -/
def validCfg : Config :=
  { seed := 0
    sea_level := 0
    shelf_level := -0.375
    mountains_amount := 0.48
    hills_amount := 0.25
    badlands_amount := 0.3125
    river_depth := 0.0234375 }

/-- C1: the claim states that the default `HILLS_AMOUNT` (defined as
`(1.0 + MOUNTAINS_AMOUNT) / 2.0`) is strictly below
`MOUNTAINS_AMOUNT = 0.48`.  Evaluating the source constants refutes
this: `HILLS_AMOUNT = 0.74`, which is strictly greater than `0.48`,
contradicting the source's own doc comment on `HILLS_AMOUNT`. -/
theorem hills_amount_exceeds_mountains_amount :
    HILLS_AMOUNT = 37 / 50 ∧ ¬ HILLS_AMOUNT < MOUNTAINS_AMOUNT ∧
      MOUNTAINS_AMOUNT < HILLS_AMOUNT := by
  refine ⟨?_, ?_, ?_⟩ <;> norm_num [HILLS_AMOUNT, MOUNTAINS_AMOUNT]

/-- C2: for every builder `b` and every 32-bit seed `s`,
`b.set_seed s` returns a builder (by value) whose `current_seed`
equals exactly `s`, regardless of the previous seed. -/
theorem set_seed_sets_current_seed
    (b : WorldBuilder) (s : Nat) (_hs : s < 2 ^ 32) :
    (b.set_seed s).current_seed = s := rfl

/-- Witness for C2 at a concrete builder and seed. -/
theorem set_seed_sets_current_seed_witness :
    7 < 2 ^ 32 ∧
      ((WorldBuilder.mk 3).set_seed 7).current_seed = 7 :=
  ⟨by norm_num,
    set_seed_sets_current_seed (WorldBuilder.mk 3) 7 (by norm_num)⟩

set_option maxHeartbeats 1000000 in
/-- C3: `build()` returns `Err(ConfigError)` exactly when some
section-3 invariant of the supplied `Config` is violated, and returns
`Ok(World)` otherwise. -/
theorem build_error_iff_invariant_violated
    (b : WorldBuilder) (c : Config) :
    ((∃ e, b.build c = Except.error e) ↔ ¬ c.invariantHolds) ∧
      ((∃ w, b.build c = Except.ok w) ↔ c.invariantHolds) := by
  unfold WorldBuilder.build Config.invariantHolds
  split_ifs with h1 h2 h3 h4 h5 h6 h7 <;>
    simp only [Except.error.injEq, Except.ok.injEq, exists_eq',
      reduceCtorEq, exists_false, true_iff, false_iff, iff_true,
      iff_false, not_not, not_false_eq_true, not_true_eq_false] <;>
    tauto

/-- C4: elevation generation is deterministic in the seed — two
Worlds built from the same seed and the same `Config` return
identical values from `elevation_at` at every coordinate. -/
theorem elevation_at_deterministic
    (s : Nat) (c : Config) (w1 w2 : World) (x y : ℚ)
    (h1 : (WorldBuilder.mk s).build c = Except.ok w1)
    (h2 : (WorldBuilder.mk s).build c = Except.ok w2) :
    w1.elevation_at x y = w2.elevation_at x y := by
  have h := h1.symm.trans h2
  injection h with h
  rw [h]

/-- Witness for C4: a concrete valid config builds, and the built
World agrees with itself at a concrete coordinate. -/
theorem elevation_at_deterministic_witness :
    (WorldBuilder.mk 42).build validCfg
        = Except.ok (World.mk { validCfg with seed := 42 }) ∧
      (World.mk { validCfg with seed := 42 }).elevation_at (1 / 2) (1 / 3)
        = (World.mk { validCfg with seed := 42 }).elevation_at (1 / 2) (1 / 3) :=
  ⟨by norm_num [WorldBuilder.build, validCfg],
    elevation_at_deterministic 42 validCfg _ _ (1 / 2) (1 / 3)
      (by norm_num [WorldBuilder.build, validCfg])
      (by norm_num [WorldBuilder.build, validCfg])⟩

/-- C5: the default `SHELF_LEVEL = -0.375` is strictly below the
default `SEA_LEVEL = 0.0`. -/
theorem shelf_level_below_sea_level : SHELF_LEVEL < SEA_LEVEL := by
  norm_num [SHELF_LEVEL, SEA_LEVEL]

/-- C6: every default `*_AMOUNT` constant lies in `[0, 1]`, and both
`SEA_LEVEL` and `SHELF_LEVEL` lie in `[-1, 1]`. -/
theorem default_constants_in_range :
    (0 ≤ MOUNTAINS_AMOUNT ∧ MOUNTAINS_AMOUNT ≤ 1) ∧
      (0 ≤ HILLS_AMOUNT ∧ HILLS_AMOUNT ≤ 1) ∧
      (0 ≤ BADLANDS_AMOUNT ∧ BADLANDS_AMOUNT ≤ 1) ∧
      (-1 ≤ SEA_LEVEL ∧ SEA_LEVEL ≤ 1) ∧
      (-1 ≤ SHELF_LEVEL ∧ SHELF_LEVEL ≤ 1) := by
  norm_num [MOUNTAINS_AMOUNT, HILLS_AMOUNT, BADLANDS_AMOUNT,
    SEA_LEVEL, SHELF_LEVEL]

/-- C7: `WorldBuilder::new()` takes its `current_seed` from a fresh
RNG draw — for every RNG state the built seed equals the drawn `u32`
— and in particular there is a state where it differs from the global
`CURRENT_SEED` constant. -/
theorem new_seed_is_rng_draw :
    (∀ rngState, (WorldBuilder.new rngState).current_seed
        = rngGenU32 rngState) ∧
      ∃ rngState,
        (WorldBuilder.new rngState).current_seed ≠ CURRENT_SEED := by
  refine ⟨fun _ => rfl, ⟨1, ?_⟩⟩
  decide

/-- C8: wherever the River Carver applies (elevation above the shelf
level), the carved elevation drops by at most `RIVER_DEPTH` below the
pre-carve elevation, for the default `Config`
(`RIVER_DEPTH = 0.0234375`). -/
theorem river_carve_lower_bound (e d : ℚ)
    (h : defaultConfig.shelf_level < e) :
    riverCarve defaultConfig e d ≥ e - RIVER_DEPTH := by
  unfold riverCarve
  rw [if_pos h]
  have hdef : defaultConfig.river_depth = RIVER_DEPTH := rfl
  rw [hdef]
  have hmin : min d 1 ≤ 1 := min_le_right d 1
  have hrd : (0 : ℚ) ≤ RIVER_DEPTH := by norm_num [RIVER_DEPTH]
  have hmul : min d 1 * RIVER_DEPTH ≤ 1 * RIVER_DEPTH :=
    mul_le_mul_of_nonneg_right hmin hrd
  linarith

/-- Witness for C8 at a concrete elevation and drainage intensity. -/
theorem river_carve_lower_bound_witness :
    defaultConfig.shelf_level < 0 ∧
      riverCarve defaultConfig 0 2 ≥ 0 - RIVER_DEPTH :=
  ⟨by norm_num [defaultConfig, SHELF_LEVEL],
    river_carve_lower_bound 0 2
      (by norm_num [defaultConfig, SHELF_LEVEL])⟩

/-- C9: `set_seed` is last-write-wins — chaining two calls gives the
same builder as the second call alone — and in particular it is
idempotent. -/
theorem set_seed_last_write_wins
    (b : WorldBuilder) (s1 s2 : Nat) :
    (b.set_seed s1).set_seed s2 = b.set_seed s2 ∧
      (b.set_seed s1).set_seed s1 = b.set_seed s1 :=
  ⟨rfl, rfl⟩

/-- C10: the default `MOUNTAIN_GLACIATION` equals exactly `0.375`,
strictly less than `1.0`, contradicting the source doc comment that
requires a value close to and greater than `1.0`. -/
theorem mountain_glaciation_below_one :
    MOUNTAIN_GLACIATION = 3 / 8 ∧ MOUNTAIN_GLACIATION < 1 := by
  norm_num [MOUNTAIN_GLACIATION]

end Wofc
